import Mathlib

/-!
Verification of the HanapEskwela session-state and authorization machine
(src/app.py), shallowly embedded in Lean 4.

The embedding models the Flask session as a record of optional fields
(the keys the code reads/writes: user_id, email, name, is_admin,
pre_2fa_user_id, pre_2fa_profile, admin_2fa_code), external collaborators
(Supabase auth, the users table, SMTP) as explicit environment values,
and each route/guard as a pure function from session and environment to
session, response, flashes and side effects.

Python truthiness on session values (`if not session.get('user_id')`) is
modelled by `truthy` on `Option String` (None and the empty string are
falsy). Dict lookups with defaults (`profile.get('is_active', True)`)
are modelled by `Option.getD`. Storing `None` into a session key is
modelled as the key being absent, which is observationally equivalent
for every read the code performs.
-/

/-- a profile row of the users table; booleans are optional because the
code reads them with `.get(key, default)`. -/
structure Profile where
  id : String
  email : Option String
  name : Option String
  is_admin : Option Bool
  is_active : Option Bool
deriving DecidableEq

/-- the Flask session, restricted to the keys src/app.py reads or writes. -/
structure Session where
  user_id : Option String := none
  email : Option String := none
  name : Option String := none
  is_admin : Option Bool := none
  pre_2fa_user_id : Option String := none
  pre_2fa_profile : Option Profile := none
  admin_2fa_code : Option String := none
deriving DecidableEq

/-- the session with no keys set, as after `session.clear()` or for a
fresh browser. -/
def Session.empty : Session := {}

/-- Python truthiness of an optional string: None and the empty string
are falsy, any other string is truthy. -/
def truthy : Option String → Bool
  | none => false
  | some s => !(s = "")

/-- Python truthiness of an optional boolean session value. -/
def truthyB : Option Bool → Bool
  | none => false
  | some b => b

/-- a flash message: (message, category). -/
abbrev Flash := String × String

/-- a handler response: redirect to a named route or render a template. -/
inductive Resp where
  | redirectTo (target : String)
  | render (tmpl : String)
deriving DecidableEq

def tmplLogin : String := "login.html"
def tmplLogin2fa : String := "login_2fa.html"
def rtLogin : String := "login"
def rtHome : String := "home"
def rtAdmin : String := "admin_interface"
def rtLanding : String := "landing"

def flashLoginRequired : Flash := ("Please log in to continue.", "error")
def flashDeactivatedGuard : Flash := ("Your account has been deactivated.", "error")
def flashDeactivatedLogin : Flash := ("Your account has been deactivated. Contact admin.", "error")
def flashAdminOnly : Flash := ("Access denied. Admin only.", "error")
def flashInvalidCode : Flash := ("Invalid verification code. Please try again.", "error")
def flashVerified : Flash := ("Admin authentication verified.", "success")
def flashLoggedIn : Flash := ("Logged in successfully.", "success")
def flashLoggedOut : Flash := ("Logged out.", "success")
def flashEmailWarn : Flash := ("Could not send email. Check logs.", "warning")

/-- console output events of send_2fa_email (the print calls), with the
data each line carries. -/
inductive ConsoleLine where
  | missingCredsWarning
  | codeFallback (toEmail code : String)
  | emailError (msg : String)
deriving DecidableEq

/-- the SMTP environment: the three credential env vars checked by
`all([smtp_server, smtp_user, smtp_password])` and whether the SMTP
transaction would succeed if attempted. -/
structure SmtpEnv where
  server : Option String
  username : Option String
  password : Option String
  sendOk : Bool
  errMsg : String := ""
deriving DecidableEq

/-- send_2fa_email: if the credentials are missing, print the code to the
console and return False; otherwise attempt the send, returning True on
success and printing only the error (not the code) on failure.
Returns (delivered, console output). -/
def send_2fa_email (env : SmtpEnv) (to_email code : String) : Bool × List ConsoleLine :=
  if !(truthy env.server && truthy env.username && truthy env.password) then
    (false, [ConsoleLine.missingCredsWarning, ConsoleLine.codeFallback to_email code])
  else if env.sendOk then
    (true, [])
  else
    (false, [ConsoleLine.emailError env.errMsg])

/-- Python str.lower() on the characters of a string. -/
def pyLower (s : String) : String := ⟨s.data.map Char.toLower⟩

/-- Python str.strip(): remove leading and trailing whitespace. -/
def pyStrip (s : String) : String :=
  ⟨((s.data.dropWhile Char.isWhitespace).reverse.dropWhile Char.isWhitespace).reverse⟩

/-- Python email.split('@')[0]: the characters before the first '@' (the
whole string when there is none). -/
def pyLocalPart (s : String) : String := ⟨s.data.takeWhile (fun c => !(c = '@'))⟩

/-- outcome of supabase.auth.sign_in_with_password: an exception with a
message, a response with no user, or a user with id and auth email. -/
inductive SignInResult where
  | exn (msg : String)
  | noUser
  | user (uid : String) (email : Option String)
deriving DecidableEq

/-- the external world as seen by one POST /login request: the auth
provider's answer, the users-table lookup (get_public_profile already
catches its own exceptions and returns None), whether the legacy-repair
insert raises, the SMTP environment, and the random 6-digit code that
`random.choices` would produce. -/
structure LoginEnv where
  signIn : SignInResult
  profileLookup : Option Profile
  insertRaises : Bool
  insertErrMsg : String := ""
  smtp : SmtpEnv
  genCode : String
deriving DecidableEq

/-- result of one POST /login request: the session afterwards, the
response, the flashes, whether supabase.auth.sign_out() was called, the
profile row persisted by legacy repair (if any), and console output. -/
structure LoginResult where
  sess : Session
  resp : Resp
  flashes : List Flash
  signOutCalled : Bool
  insertedProfile : Option Profile
  console : List ConsoleLine
deriving DecidableEq

/-- POST /login (src/app.py lines 152-212). The already-logged-in check
at the top redirects before the form is processed. On credential
success the profile is fetched; a missing profile is synthesized and
inserted (an insert exception propagates to the outer handler, which
flashes a login failure); a banned profile signs out and re-renders; an
admin profile stores the pending 2FA sub-state and renders the 2FA
form; otherwise the session becomes authenticated as a non-admin. -/
def login_post (s : Session) (emailRaw _password : String) (env : LoginEnv) : LoginResult :=
  if truthy s.user_id then
    if truthyB s.is_admin then
      ⟨s, Resp.redirectTo rtAdmin, [], false, none, []⟩
    else
      ⟨s, Resp.redirectTo rtHome, [], false, none, []⟩
  else
    let email := pyLower (pyStrip emailRaw)
    match env.signIn with
    | SignInResult.exn msg =>
      ⟨s, Resp.render tmplLogin, [("Login failed: " ++ msg, "error")], false, none, []⟩
    | SignInResult.noUser =>
      ⟨s, Resp.render tmplLogin, [], false, none, []⟩
    | SignInResult.user uid uemail =>
      let proceed : Profile → Option Profile → LoginResult := fun profile inserted =>
        if !(profile.is_active.getD true) then
          ⟨s, Resp.render tmplLogin, [flashDeactivatedLogin], true, inserted, []⟩
        else if profile.is_admin.getD false then
          let code := env.genCode
          let s' : Session :=
            { s with pre_2fa_user_id := some uid
                     pre_2fa_profile := some profile
                     admin_2fa_code := some code }
          let sent := send_2fa_email env.smtp email code
          let fl :=
            if sent.1 then [("Verification code sent to " ++ email, "success")]
            else [flashEmailWarn]
          ⟨s', Resp.render tmplLogin2fa, fl, false, inserted, sent.2⟩
        else
          let s' : Session :=
            { s with user_id := some uid
                     email := uemail
                     name := profile.name
                     is_admin := some false }
          ⟨s', Resp.redirectTo rtHome, [flashLoggedIn], false, inserted, []⟩
      match env.profileLookup with
      | some p => proceed p none
      | none =>
        let p : Profile :=
          { id := uid
            email := some email
            name := some (pyLocalPart email)
            is_admin := some false
            is_active := some true }
        if env.insertRaises then
          ⟨s, Resp.render tmplLogin, [("Login failed: " ++ env.insertErrMsg, "error")],
            false, none, []⟩
        else
          proceed p (some p)

/-- POST /verify-2fa (src/app.py lines 214-238). With no truthy
pre_2fa_user_id, redirect to login untouched. Otherwise compare the
submitted code with the stored one by exact (Option) string equality:
Python's `request.form.get('code') == session.get('admin_2fa_code')`
compares None == None as equal, which Option equality mirrors. On
match, pop the three pending keys and populate the authenticated
fields from the snapshot (the code would raise if the snapshot were
absent while pre_2fa_user_id is truthy; `Option.bind` totalizes that
unreachable read). On mismatch, leave the session as it is. -/
def verify_2fa (s : Session) (code_input : Option String) : Session × Resp × List Flash :=
  let user_id := s.pre_2fa_user_id
  let profile := s.pre_2fa_profile
  let expected := s.admin_2fa_code
  if !(truthy user_id) then
    (s, Resp.redirectTo rtLogin, [])
  else if code_input = expected then
    let s' : Session :=
      { s with pre_2fa_user_id := none
               pre_2fa_profile := none
               admin_2fa_code := none
               user_id := user_id
               email := profile.bind Profile.email
               name := profile.bind Profile.name
               is_admin := some true }
    (s', Resp.redirectTo rtAdmin, [flashVerified])
  else
    (s, Resp.render tmplLogin2fa, [flashInvalidCode])

/-- /logout (src/app.py lines 267-272): sign out at the provider, clear
the whole session, redirect to landing. Returns
(session, response, flashes, signOutCalled). -/
def logout (_s : Session) : Session × Resp × List Flash × Bool :=
  (Session.empty, Resp.redirectTo rtLanding, [flashLoggedOut], true)

/-- outcome of a guard: run the wrapped handler, or deny with a
response. -/
inductive GuardOutcome where
  | allow
  | deny (resp : Resp)
deriving DecidableEq

/-- result of running a guard: the session afterwards, the outcome and
the flashes. -/
structure GuardResult where
  sess : Session
  outcome : GuardOutcome
  flashes : List Flash
deriving DecidableEq

/-- the login_required decorator (src/app.py lines 85-100). `fetched` is
the result of get_public_profile(session['user_id']) (None covers both
a missing row and a fetch error). A missing profile or is_active false
clears the whole session and denies. -/
def login_required (s : Session) (fetched : Option Profile) : GuardResult :=
  if !(truthy s.user_id) then
    ⟨s, GuardOutcome.deny (Resp.redirectTo rtLogin), [flashLoginRequired]⟩
  else
    match fetched with
    | none =>
      ⟨Session.empty, GuardOutcome.deny (Resp.redirectTo rtLogin), [flashDeactivatedGuard]⟩
    | some p =>
      if !(p.is_active.getD true) then
        ⟨Session.empty, GuardOutcome.deny (Resp.redirectTo rtLogin), [flashDeactivatedGuard]⟩
      else
        ⟨s, GuardOutcome.allow, []⟩

/-- the admin_required decorator (src/app.py lines 102-112). It inspects
only the session: no profile fetch, no ban check. -/
def admin_required (s : Session) : GuardResult :=
  if !(truthy s.user_id) then
    ⟨s, GuardOutcome.deny (Resp.redirectTo rtLogin), []⟩
  else if !(truthyB s.is_admin) then
    ⟨s, GuardOutcome.deny (Resp.redirectTo rtHome), [flashAdminOnly]⟩
  else
    ⟨s, GuardOutcome.allow, []⟩

/-- one session-touching operation of the machine, with the external
inputs it consumes. -/
inductive Op where
  | opLogin (emailRaw password : String) (env : LoginEnv)
  | opVerify2fa (code_input : Option String)
  | opLogout
  | opGuardLogin (fetched : Option Profile)
  | opGuardAdmin

/-- the session after running one operation. -/
def step (s : Session) : Op → Session
  | Op.opLogin e pw env => (login_post s e pw env).sess
  | Op.opVerify2fa ci => (verify_2fa s ci).1
  | Op.opLogout => (logout s).1
  | Op.opGuardLogin fetched => (login_required s fetched).sess
  | Op.opGuardAdmin => (admin_required s).sess

/-- whether an operation is a login attempt. -/
def Op.isLogin : Op → Bool
  | Op.opLogin _ _ _ => true
  | _ => false

/-- both the authenticated marker and the pending marker are set. -/
def bothSet (s : Session) : Bool :=
  truthy s.user_id && truthy s.pre_2fa_user_id

/-- whether the three SMTP credential env vars are all truthy
(`all([smtp_server, smtp_user, smtp_password])`). -/
def smtpConfigured (env : SmtpEnv) : Bool :=
  truthy env.server && truthy env.username && truthy env.password

/-- whether a console line is the 2FA-code fallback line. -/
def ConsoleLine.isCodeFallback : ConsoleLine → Bool
  | ConsoleLine.codeFallback _ _ => true
  | _ => false

/- Concrete fixtures used by witnesses and counterexamples. -/

/-- an active non-admin profile. -/
def userProfile : Profile :=
  { id := "u1", email := some "u@x.com", name := some "u",
    is_admin := some false, is_active := some true }

/-- an active admin profile. -/
def adminProfile : Profile :=
  { id := "a1", email := some "admin@x.com", name := some "admin",
    is_admin := some true, is_active := some true }

/-- an admin profile that has been banned. -/
def bannedAdminProfile : Profile :=
  { id := "a1", email := some "admin@x.com", name := some "admin",
    is_admin := some true, is_active := some false }

/-- a banned non-admin profile. -/
def bannedUserProfile : Profile :=
  { id := "u1", email := some "u@x.com", name := some "u",
    is_admin := some false, is_active := some false }

/-- an SMTP environment with no credentials configured. -/
def smtpNone : SmtpEnv :=
  { server := none, username := none, password := none, sendOk := false }

/-- an SMTP environment with credentials configured whose send attempt
fails. -/
def smtpConfiguredFailing : SmtpEnv :=
  { server := some "smtp-relay.brevo.com", username := some "apikey",
    password := some "secret", sendOk := false, errMsg := "connection refused" }

/-- login environment: admin credentials accepted, admin profile found. -/
def envAdminLogin : LoginEnv :=
  { signIn := SignInResult.user "a1" (some "admin@x.com")
    profileLookup := some adminProfile
    insertRaises := false
    smtp := smtpNone
    genCode := "123456" }

/-- login environment: non-admin credentials accepted, profile found. -/
def envUserLogin : LoginEnv :=
  { signIn := SignInResult.user "u1" (some "u@x.com")
    profileLookup := some userProfile
    insertRaises := false
    smtp := smtpNone
    genCode := "654321" }

/-- a session authenticated as a non-admin user. -/
def sAuthUser : Session :=
  { user_id := some "u1", email := some "u@x.com", name := some "u",
    is_admin := some false }

/-- a session authenticated as an admin. -/
def sAuthAdmin : Session :=
  { user_id := some "a1", email := some "admin@x.com", name := some "admin",
    is_admin := some true }

/-- a session pending the admin second factor. -/
def sPending : Session :=
  { pre_2fa_user_id := some "a1", pre_2fa_profile := some adminProfile,
    admin_2fa_code := some "123456" }

/-- C10: with no truthy pre_2fa_user_id, SubmitSecondFactor redirects to
login and leaves the session exactly as it was, with no flash. -/
theorem verify_2fa_not_pending_frame (s : Session) (code_input : Option String)
    (h : truthy s.pre_2fa_user_id = false) :
    verify_2fa s code_input = (s, Resp.redirectTo rtLogin, []) := by
  unfold verify_2fa
  simp [h]

theorem verify_2fa_not_pending_frame_witness :
    truthy sAuthUser.pre_2fa_user_id = false ∧
    verify_2fa sAuthUser (some "123456") = (sAuthUser, Resp.redirectTo rtLogin, []) :=
  ⟨rfl, verify_2fa_not_pending_frame sAuthUser (some "123456") rfl⟩

/-- C9: for an authenticated session whose profile fetch returns none,
RequireSession clears the whole session and denies exactly as it does
for a banned profile. -/
theorem login_required_missing_profile (s : Session) (p : Profile)
    (hu : truthy s.user_id = true) (hb : p.is_active = some false) :
    login_required s none =
      ⟨Session.empty, GuardOutcome.deny (Resp.redirectTo rtLogin), [flashDeactivatedGuard]⟩ ∧
    login_required s none = login_required s (some p) := by
  unfold login_required
  simp [hu, hb]

theorem login_required_missing_profile_witness :
    truthy sAuthUser.user_id = true ∧
    bannedUserProfile.is_active = some false ∧
    (login_required sAuthUser none =
      ⟨Session.empty, GuardOutcome.deny (Resp.redirectTo rtLogin), [flashDeactivatedGuard]⟩ ∧
    login_required sAuthUser none = login_required sAuthUser (some bannedUserProfile)) :=
  ⟨rfl, rfl, login_required_missing_profile sAuthUser bannedUserProfile rfl rfl⟩

/-- C6: when the credential verifier raises (wrong password), Login
leaves the session unchanged (neither user_id nor pre_2fa_user_id is
set), calls no sign-out, persists nothing, and surfaces a
request-scoped login-failure flash on the re-rendered login page. -/
theorem login_wrong_password_frame (s : Session) (emailRaw pw msg : String)
    (env : LoginEnv)
    (hu : truthy s.user_id = false) (he : env.signIn = SignInResult.exn msg) :
    login_post s emailRaw pw env =
      ⟨s, Resp.render tmplLogin, [("Login failed: " ++ msg, "error")], false, none, []⟩ := by
  unfold login_post
  simp [hu, he]

theorem login_wrong_password_frame_witness :
    truthy Session.empty.user_id = false ∧
    ({ envUserLogin with signIn := SignInResult.exn "Invalid login credentials" } : LoginEnv).signIn
      = SignInResult.exn "Invalid login credentials" ∧
    login_post Session.empty "u@x.com" "wrong"
        { envUserLogin with signIn := SignInResult.exn "Invalid login credentials" } =
      ⟨Session.empty, Resp.render tmplLogin,
        [("Login failed: Invalid login credentials", "error")], false, none, []⟩ :=
  ⟨rfl, rfl,
    login_wrong_password_frame Session.empty "u@x.com" "wrong" "Invalid login credentials"
      { envUserLogin with signIn := SignInResult.exn "Invalid login credentials" } rfl rfl⟩

/-- C4: in the PendingSecondFactor state, SubmitSecondFactor compares
the submitted code to the stored one by exact string equality; on match
it clears the three pending fields, populates user_id / name / email
from the pending snapshot, sets is_admin true (Authenticated); on
mismatch it flashes InvalidSecondFactorCode, re-renders the 2FA form,
and the session (all pending fields included) is unchanged. -/
theorem verify_2fa_pending_cases (s : Session) (p : Profile) (c : String)
    (ci : Option String)
    (hu : truthy s.pre_2fa_user_id = true)
    (hp : s.pre_2fa_profile = some p) (hc : s.admin_2fa_code = some c) :
    (ci = some c →
      verify_2fa s ci =
        ({ s with pre_2fa_user_id := none
                  pre_2fa_profile := none
                  admin_2fa_code := none
                  user_id := s.pre_2fa_user_id
                  email := p.email
                  name := p.name
                  is_admin := some true },
          Resp.redirectTo rtAdmin, [flashVerified])) ∧
    (ci ≠ some c →
      verify_2fa s ci = (s, Resp.render tmplLogin2fa, [flashInvalidCode])) := by
  constructor
  · intro hci
    unfold verify_2fa
    simp [hu, hp, hc, hci]
  · intro hci
    unfold verify_2fa
    simp [hu, hp, hc, hci]

theorem verify_2fa_pending_cases_witness :
    truthy sPending.pre_2fa_user_id = true ∧
    sPending.pre_2fa_profile = some adminProfile ∧
    sPending.admin_2fa_code = some "123456" ∧
    ((some "123456" : Option String) = some "123456" →
      verify_2fa sPending (some "123456") =
        ({ sPending with pre_2fa_user_id := none
                         pre_2fa_profile := none
                         admin_2fa_code := none
                         user_id := sPending.pre_2fa_user_id
                         email := adminProfile.email
                         name := adminProfile.name
                         is_admin := some true },
          Resp.redirectTo rtAdmin, [flashVerified])) ∧
    ((some "999999" : Option String) ≠ some "123456" →
      verify_2fa sPending (some "999999") =
        (sPending, Resp.render tmplLogin2fa, [flashInvalidCode])) :=
  ⟨rfl, rfl, rfl,
    (verify_2fa_pending_cases sPending adminProfile "123456" (some "123456") rfl rfl rfl).1,
    (verify_2fa_pending_cases sPending adminProfile "123456" (some "999999") rfl rfl rfl).2⟩

/-- C5: on a successful credential check with an active profile found in
the store, Login enters PendingSecondFactor (storing pending user id,
profile snapshot and expected code, with user_id left unset) exactly
when the profile is an admin; otherwise it authenticates directly with
is_admin false. -/
theorem login_active_profile_branches (s : Session) (emailRaw pw uid : String)
    (uemail : Option String) (env : LoginEnv) (p : Profile)
    (hu : truthy s.user_id = false)
    (hs : env.signIn = SignInResult.user uid uemail)
    (hp : env.profileLookup = some p)
    (ha : p.is_active.getD true = true) :
    (p.is_admin.getD false = true →
      (login_post s emailRaw pw env).sess =
        { s with pre_2fa_user_id := some uid
                 pre_2fa_profile := some p
                 admin_2fa_code := some env.genCode } ∧
      truthy (login_post s emailRaw pw env).sess.user_id = false ∧
      (login_post s emailRaw pw env).resp = Resp.render tmplLogin2fa) ∧
    (p.is_admin.getD false = false →
      (login_post s emailRaw pw env).sess =
        { s with user_id := some uid
                 email := uemail
                 name := p.name
                 is_admin := some false } ∧
      (login_post s emailRaw pw env).resp = Resp.redirectTo rtHome) := by
  constructor
  · intro hadm
    unfold login_post
    simp [hu, hs, hp, ha, hadm]
  · intro hadm
    unfold login_post
    simp [hu, hs, hp, ha, hadm]

theorem login_active_profile_branches_witness :
    truthy Session.empty.user_id = false ∧
    envAdminLogin.signIn = SignInResult.user "a1" (some "admin@x.com") ∧
    envAdminLogin.profileLookup = some adminProfile ∧
    adminProfile.is_active.getD true = true ∧
    (adminProfile.is_admin.getD false = true →
      (login_post Session.empty "admin@x.com" "p2" envAdminLogin).sess =
        { Session.empty with pre_2fa_user_id := some "a1"
                             pre_2fa_profile := some adminProfile
                             admin_2fa_code := some envAdminLogin.genCode } ∧
      truthy (login_post Session.empty "admin@x.com" "p2" envAdminLogin).sess.user_id = false ∧
      (login_post Session.empty "admin@x.com" "p2" envAdminLogin).resp =
        Resp.render tmplLogin2fa) :=
  ⟨rfl, rfl, rfl, rfl,
    (login_active_profile_branches Session.empty "admin@x.com" "p2" "a1"
      (some "admin@x.com") envAdminLogin adminProfile rfl rfl rfl rfl).1⟩

/-- C3: a banned profile found at login makes Login sign out at the
provider, leave the session exactly as it was (Anonymous: no user_id,
no pending fields set), and re-render the login page with the
deactivation flash; and on any later guarded request, an authenticated
session whose re-fetched profile is banned is cleared and denied with
the deactivation flash. -/
theorem login_banned_and_guard_revalidates (s s2 : Session)
    (emailRaw pw uid : String) (uemail : Option String)
    (env : LoginEnv) (p q : Profile)
    (hu : truthy s.user_id = false)
    (hs : env.signIn = SignInResult.user uid uemail)
    (hp : env.profileLookup = some p)
    (hb : p.is_active.getD true = false)
    (hu2 : truthy s2.user_id = true)
    (hq : q.is_active.getD true = false) :
    login_post s emailRaw pw env =
      ⟨s, Resp.render tmplLogin, [flashDeactivatedLogin], true, none, []⟩ ∧
    login_required s2 (some q) =
      ⟨Session.empty, GuardOutcome.deny (Resp.redirectTo rtLogin), [flashDeactivatedGuard]⟩ := by
  constructor
  · unfold login_post
    simp [hu, hs, hp, hb]
  · unfold login_required
    simp [hu2, hq]

theorem login_banned_and_guard_revalidates_witness :
    truthy Session.empty.user_id = false ∧
    ({ envUserLogin with profileLookup := some bannedUserProfile } : LoginEnv).signIn
      = SignInResult.user "u1" (some "u@x.com") ∧
    ({ envUserLogin with profileLookup := some bannedUserProfile } : LoginEnv).profileLookup
      = some bannedUserProfile ∧
    bannedUserProfile.is_active.getD true = false ∧
    truthy sAuthUser.user_id = true ∧
    (login_post Session.empty "u@x.com" "p1"
        { envUserLogin with profileLookup := some bannedUserProfile } =
      ⟨Session.empty, Resp.render tmplLogin, [flashDeactivatedLogin], true, none, []⟩ ∧
    login_required sAuthUser (some bannedUserProfile) =
      ⟨Session.empty, GuardOutcome.deny (Resp.redirectTo rtLogin), [flashDeactivatedGuard]⟩) :=
  ⟨rfl, rfl, rfl, rfl, rfl,
    login_banned_and_guard_revalidates Session.empty sAuthUser "u@x.com" "p1" "u1"
      (some "u@x.com") { envUserLogin with profileLookup := some bannedUserProfile }
      bannedUserProfile bannedUserProfile rfl rfl rfl rfl rfl rfl⟩

/-- C2 counterexample: admin_required takes no profile at all; on an
authenticated admin session it allows with the session untouched, even
though the profile row in the store is banned — whereas login_required
with that banned row clears the session and denies. The admin guard
therefore does not terminate a banned administrator session. -/
theorem admin_guard_no_ban_check_counterexample :
    admin_required sAuthAdmin = ⟨sAuthAdmin, GuardOutcome.allow, []⟩ ∧
    bannedAdminProfile.is_active = some false ∧
    login_required sAuthAdmin (some bannedAdminProfile) =
      ⟨Session.empty, GuardOutcome.deny (Resp.redirectTo rtLogin), [flashDeactivatedGuard]⟩ :=
  ⟨rfl, rfl, rfl⟩

/-- C2 amended: RequireAdminSession inspects only the session and never
re-fetches the Profile, so the ban status plays no part in its
decision: with no truthy user_id it denies with a redirect to login
(and no flash); with a truthy user_id it allows if is_admin is set and
fails with AuthorizationDenied (redirect home) if not; the session is
left unchanged in every case. -/
theorem admin_required_session_only (s : Session) :
    (truthy s.user_id = false →
      admin_required s = ⟨s, GuardOutcome.deny (Resp.redirectTo rtLogin), []⟩) ∧
    (truthy s.user_id = true → truthyB s.is_admin = true →
      admin_required s = ⟨s, GuardOutcome.allow, []⟩) ∧
    (truthy s.user_id = true → truthyB s.is_admin = false →
      admin_required s =
        ⟨s, GuardOutcome.deny (Resp.redirectTo rtHome), [flashAdminOnly]⟩) := by
  refine ⟨fun hu => ?_, fun hu hadm => ?_, fun hu hadm => ?_⟩
  · unfold admin_required
    simp [hu]
  · unfold admin_required
    simp [hu, hadm]
  · unfold admin_required
    simp [hu, hadm]

theorem admin_required_session_only_witness :
    admin_required Session.empty =
      ⟨Session.empty, GuardOutcome.deny (Resp.redirectTo rtLogin), []⟩ ∧
    admin_required sAuthAdmin = ⟨sAuthAdmin, GuardOutcome.allow, []⟩ ∧
    admin_required sAuthUser =
      ⟨sAuthUser, GuardOutcome.deny (Resp.redirectTo rtHome), [flashAdminOnly]⟩ :=
  ⟨(admin_required_session_only Session.empty).1 rfl,
   (admin_required_session_only sAuthAdmin).2.1 rfl rfl,
   (admin_required_session_only sAuthUser).2.2 rfl rfl⟩

/-- login environment: credentials accepted for a user with no profile
row, and the legacy-repair insert raises. -/
def envOrphanInsertFails : LoginEnv :=
  { signIn := SignInResult.user "o1" (some "o@x.com")
    profileLookup := none
    insertRaises := true
    insertErrMsg := "insert failed"
    smtp := smtpNone
    genCode := "111111" }

/-- C7 counterexample: when the legacy-repair insert raises, the login
does NOT proceed to Authenticated: the exception is caught by the
handler's general error handler, the session is left Anonymous
(user_id unset), nothing is persisted, and the login page is
re-rendered with a login-failure flash. -/
theorem legacy_repair_insert_failure_counterexample :
    (login_post Session.empty "o@x.com" "pw" envOrphanInsertFails).sess = Session.empty ∧
    truthy (login_post Session.empty "o@x.com" "pw" envOrphanInsertFails).sess.user_id
      = false ∧
    (login_post Session.empty "o@x.com" "pw" envOrphanInsertFails).insertedProfile = none ∧
    (login_post Session.empty "o@x.com" "pw" envOrphanInsertFails).resp =
      Resp.render tmplLogin ∧
    (login_post Session.empty "o@x.com" "pw" envOrphanInsertFails).flashes =
      [("Login failed: insert failed", "error")] :=
  ⟨rfl, rfl, rfl, rfl, rfl⟩

/-- C7 amended: on a credential-verified login with no matching profile
row, Login synthesizes a default profile (is_admin false, is_active
true) from the login email; if the insert succeeds the profile is
persisted and the login authenticates with is_admin false; if the
insert raises, the exception is caught by the handler's general error
handler: the session is unchanged (still Anonymous), nothing is
persisted, and the request fails with a login-failure flash. -/
theorem legacy_repair_branches (s : Session) (emailRaw pw uid : String)
    (uemail : Option String) (env : LoginEnv)
    (hu : truthy s.user_id = false)
    (hs : env.signIn = SignInResult.user uid uemail)
    (hp : env.profileLookup = none) :
    (env.insertRaises = false →
      (login_post s emailRaw pw env).insertedProfile =
        some { id := uid
               email := some (pyLower (pyStrip emailRaw))
               name := some (pyLocalPart (pyLower (pyStrip emailRaw)))
               is_admin := some false
               is_active := some true } ∧
      (login_post s emailRaw pw env).sess =
        { s with user_id := some uid
                 email := uemail
                 name := some (pyLocalPart (pyLower (pyStrip emailRaw)))
                 is_admin := some false } ∧
      (login_post s emailRaw pw env).resp = Resp.redirectTo rtHome) ∧
    (env.insertRaises = true →
      (login_post s emailRaw pw env).sess = s ∧
      (login_post s emailRaw pw env).insertedProfile = none ∧
      (login_post s emailRaw pw env).resp = Resp.render tmplLogin ∧
      (login_post s emailRaw pw env).flashes =
        [("Login failed: " ++ env.insertErrMsg, "error")]) := by
  constructor
  · intro hins
    unfold login_post
    simp [hu, hs, hp, hins]
  · intro hins
    unfold login_post
    simp [hu, hs, hp, hins]

theorem legacy_repair_branches_witness :
    truthy Session.empty.user_id = false ∧
    ({ envOrphanInsertFails with insertRaises := false } : LoginEnv).signIn
      = SignInResult.user "o1" (some "o@x.com") ∧
    ({ envOrphanInsertFails with insertRaises := false } : LoginEnv).profileLookup = none ∧
    (({ envOrphanInsertFails with insertRaises := false } : LoginEnv).insertRaises = false →
      (login_post Session.empty "o@x.com" "pw"
          { envOrphanInsertFails with insertRaises := false }).insertedProfile =
        some { id := "o1"
               email := some "o@x.com"
               name := some "o"
               is_admin := some false
               is_active := some true } ∧
      (login_post Session.empty "o@x.com" "pw"
          { envOrphanInsertFails with insertRaises := false }).sess =
        { Session.empty with user_id := some "o1"
                             email := some "o@x.com"
                             name := some "o"
                             is_admin := some false } ∧
      (login_post Session.empty "o@x.com" "pw"
          { envOrphanInsertFails with insertRaises := false }).resp =
        Resp.redirectTo rtHome) :=
  ⟨rfl, rfl, rfl, fun h => by
    have hmain := (legacy_repair_branches Session.empty "o@x.com" "pw" "o1"
      (some "o@x.com") { envOrphanInsertFails with insertRaises := false }
      rfl rfl rfl).1 h
    exact hmain⟩

/-- login environment: admin login with SMTP credentials configured but
the send attempt failing. -/
def envAdminLoginSendFails : LoginEnv :=
  { signIn := SignInResult.user "a1" (some "admin@x.com")
    profileLookup := some adminProfile
    insertRaises := false
    smtp := smtpConfiguredFailing
    genCode := "123456" }

/-- C8 counterexample: on an admin login where SMTP is configured but
the send raises, the console output is only the error line — the 2FA
code is NOT emitted through the console channel (no fallback line
appears), contrary to the claim that delivery failure falls back to
the console. (The transition itself is still non-fatal: the session is
pending and the caller is warned.) -/
theorem send_failure_console_counterexample :
    (login_post Session.empty "admin@x.com" "pw" envAdminLoginSendFails).console =
      [ConsoleLine.emailError "connection refused"] ∧
    ((login_post Session.empty "admin@x.com" "pw" envAdminLoginSendFails).console.any
      ConsoleLine.isCodeFallback) = false ∧
    (login_post Session.empty "admin@x.com" "pw" envAdminLoginSendFails).flashes =
      [flashEmailWarn] ∧
    (login_post Session.empty "admin@x.com" "pw" envAdminLoginSendFails).sess.pre_2fa_user_id =
      some "a1" :=
  ⟨rfl, rfl, rfl, rfl⟩

/-- C8 amended: on an admin login, failed second-factor delivery is
non-fatal: the session still enters PendingSecondFactor with all three
pending fields set and the caller gets only a warning flash; the code
falls back to the console channel only when the SMTP credentials are
missing, while on a send error with configured credentials only the
error is printed and the code is not re-emitted. -/
theorem twofa_delivery_failure_nonfatal (s : Session) (emailRaw pw uid : String)
    (uemail : Option String) (env : LoginEnv) (p : Profile)
    (hu : truthy s.user_id = false)
    (hs : env.signIn = SignInResult.user uid uemail)
    (hp : env.profileLookup = some p)
    (ha : p.is_active.getD true = true)
    (hadm : p.is_admin.getD false = true) :
    ((send_2fa_email env.smtp (pyLower (pyStrip emailRaw)) env.genCode).1 = false →
      (login_post s emailRaw pw env).sess =
        { s with pre_2fa_user_id := some uid
                 pre_2fa_profile := some p
                 admin_2fa_code := some env.genCode } ∧
      (login_post s emailRaw pw env).resp = Resp.render tmplLogin2fa ∧
      (login_post s emailRaw pw env).flashes = [flashEmailWarn]) ∧
    (smtpConfigured env.smtp = false →
      (login_post s emailRaw pw env).console =
        [ConsoleLine.missingCredsWarning,
         ConsoleLine.codeFallback (pyLower (pyStrip emailRaw)) env.genCode]) ∧
    (smtpConfigured env.smtp = true → env.smtp.sendOk = false →
      (login_post s emailRaw pw env).console =
        [ConsoleLine.emailError env.smtp.errMsg]) := by
  refine ⟨fun hfail => ?_, fun hconf => ?_, fun hconf hsend => ?_⟩
  · unfold login_post
    simp [hu, hs, hp, ha, hadm, hfail]
  · unfold login_post send_2fa_email
    unfold smtpConfigured at hconf
    simp [hu, hs, hp, ha, hadm, hconf]
  · unfold login_post send_2fa_email
    unfold smtpConfigured at hconf
    simp [hu, hs, hp, ha, hadm, hconf, hsend]

theorem twofa_delivery_failure_nonfatal_witness :
    truthy Session.empty.user_id = false ∧
    envAdminLogin.signIn = SignInResult.user "a1" (some "admin@x.com") ∧
    envAdminLogin.profileLookup = some adminProfile ∧
    adminProfile.is_active.getD true = true ∧
    adminProfile.is_admin.getD false = true ∧
    ((send_2fa_email envAdminLogin.smtp (pyLower (pyStrip "admin@x.com"))
        envAdminLogin.genCode).1 = false →
      (login_post Session.empty "admin@x.com" "p2" envAdminLogin).sess =
        { Session.empty with pre_2fa_user_id := some "a1"
                             pre_2fa_profile := some adminProfile
                             admin_2fa_code := some envAdminLogin.genCode } ∧
      (login_post Session.empty "admin@x.com" "p2" envAdminLogin).resp =
        Resp.render tmplLogin2fa ∧
      (login_post Session.empty "admin@x.com" "p2" envAdminLogin).flashes =
        [flashEmailWarn]) ∧
    (smtpConfigured envAdminLogin.smtp = false →
      (login_post Session.empty "admin@x.com" "p2" envAdminLogin).console =
        [ConsoleLine.missingCredsWarning,
         ConsoleLine.codeFallback (pyLower (pyStrip "admin@x.com")) envAdminLogin.genCode]) :=
  ⟨rfl, rfl, rfl, rfl, rfl,
    (twofa_delivery_failure_nonfatal Session.empty "admin@x.com" "p2" "a1"
      (some "admin@x.com") envAdminLogin adminProfile rfl rfl rfl rfl rfl).1,
    (twofa_delivery_failure_nonfatal Session.empty "admin@x.com" "p2" "a1"
      (some "admin@x.com") envAdminLogin adminProfile rfl rfl rfl rfl rfl).2.1⟩

/-- C1 counterexample: starting from the empty session, an admin login
(entering PendingSecondFactor) followed by a second login with
non-admin credentials — allowed, since the pending session has no
truthy user_id — produces a session holding BOTH user_id and
pre_2fa_user_id: the non-admin branch sets user_id without clearing
the pending fields. -/
theorem mutex_invariant_counterexample :
    bothSet
      (step (step Session.empty (Op.opLogin "admin@x.com" "p2" envAdminLogin))
        (Op.opLogin "u@x.com" "p1" envUserLogin)) = true ∧
    (step (step Session.empty (Op.opLogin "admin@x.com" "p2" envAdminLogin))
        (Op.opLogin "u@x.com" "p1" envUserLogin)).user_id = some "u1" ∧
    (step (step Session.empty (Op.opLogin "admin@x.com" "p2" envAdminLogin))
        (Op.opLogin "u@x.com" "p1" envUserLogin)).pre_2fa_user_id = some "a1" :=
  ⟨rfl, rfl, rfl⟩

/-- C1 amended: mutual exclusion of user_id and pre_2fa_user_id is
preserved by every operation except a Login performed on a session
already in PendingSecondFactor: SubmitSecondFactor, Logout and both
guards always preserve it, and Login preserves it whenever
pre_2fa_user_id is not already set. -/
theorem mutex_preserved (s : Session) (op : Op)
    (hInv : bothSet s = false)
    (h : op.isLogin = false ∨ truthy s.pre_2fa_user_id = false) :
    bothSet (step s op) = false := by
  cases op with
  | opLogin e pw env =>
    have hpend : truthy s.pre_2fa_user_id = false := by
      rcases h with h | h
      · simp [Op.isLogin] at h
      · exact h
    simp only [step]
    unfold login_post
    by_cases hu : truthy s.user_id = true
    · simp only [hu, if_true]
      split <;> exact hInv
    · have hu' : truthy s.user_id = false := by simpa using hu
      simp only [hu', Bool.false_eq_true, if_false]
      rcases henv : env.signIn with msg | _ | ⟨uid, uemail⟩ <;> simp only [henv]
      · exact hInv
      · exact hInv
      · rcases hpl : env.profileLookup with _ | p <;> simp only [hpl]
        · split
          · exact hInv
          · simp [bothSet, hpend]
        · split
          · exact hInv
          · split
            · simp [bothSet, hu']
            · simp [bothSet, hpend]
  | opVerify2fa ci =>
    simp only [step, verify_2fa]
    split
    · exact hInv
    · split
      · simp [bothSet, truthy]
      · exact hInv
  | opLogout =>
    simp [step, logout, Session.empty, bothSet, truthy]
  | opGuardLogin fetched =>
    simp only [step]
    unfold login_required
    split
    · exact hInv
    · split
      · simp [Session.empty, bothSet, truthy]
      · split
        · simp [Session.empty, bothSet, truthy]
        · exact hInv
  | opGuardAdmin =>
    simp only [step]
    unfold admin_required
    split
    · exact hInv
    · split <;> exact hInv

theorem mutex_preserved_witness :
    bothSet sPending = false ∧
    (Op.opGuardAdmin.isLogin = false ∨ truthy sPending.pre_2fa_user_id = false) ∧
    bothSet (step sPending Op.opGuardAdmin) = false :=
  ⟨rfl, Or.inl rfl, mutex_preserved sPending Op.opGuardAdmin rfl (Or.inl rfl)⟩
